import Mathlib

/-!
Shallow embedding of the cashflow store (src/lib/store.ts) together with the
shape of the ledger-mirror client it calls (src/lib/blockchain.ts).  External
effects (authentication, database queries, mirror HTTP calls) are supplied as
oracle values; each store operation becomes a pure function from the current
state, its input and an oracle to the new state, the returned or thrown
value, and the chronological trace of external calls it issued.  Timestamps
are represented by the epoch-milliseconds instant a date string denotes.
-/

deriving instance DecidableEq for Except

namespace CashflowStore

/-- A date-valued string as the program sees it: empty (falsy in JS),
non-empty but unparseable (Date parsing yields NaN), or parseable to an
epoch-milliseconds instant.  Canonical ISO strings produced by toISOString
are represented by the instant they denote. -/
inductive DateVal
  | empty
  | invalid
  | valid (ms : Int)
deriving DecidableEq

/-- The literal union of the category field: income or expense. -/
inductive Category
  | income
  | expense
deriving DecidableEq

/-- The two physical tables, income_transaction and expense_transaction. -/
inductive SourceTable
  | income
  | expense
deriving DecidableEq

/-- The table-name constants INCOME_TABLE and EXPENSE_TABLE. -/
def tableName : SourceTable → String
  | .income => "income_transaction"
  | .expense => "expense_transaction"

/-- JS truthiness of a nullable string: null and the empty string are falsy. -/
def strTruthy : Option String → Bool
  | none => false
  | some s => decide (s ≠ "")

/-- JS truthiness of a nullable number: null and 0 are falsy. -/
def intTruthy : Option Int → Bool
  | none => false
  | some n => decide (n ≠ 0)

/-- JS template interpolation of a nullable string: null renders as the
four-letter word null. -/
def jsStr : Option String → String
  | none => "null"
  | some s => s

/-- JS template interpolation of a nullable integer. -/
def jsInt : Option Int → String
  | none => "null"
  | some n => toString n

/-- A row of the income_transaction table. -/
structure IncomeRow where
  id : Int
  branch_id : Option Int
  user_id : Option String
  org_id : Option String
  created_at : Option DateVal
  amount : Option Int
  income_type : Option String
  cashflow_id : Option Int
deriving DecidableEq

/-- A row of the expense_transaction table. -/
structure ExpenseRow where
  id : Int
  branch_id : Option Int
  user_id : Option String
  org_id : Option String
  created_at : Option DateVal
  amount : Option Int
  expense_category : Option String
  description : Option String
  cashflow_id : Option Int
deriving DecidableEq

/-- The unified Cashflow record.  The date field holds the instant denoted
by the ISO string the mapper produced. -/
structure Cashflow where
  id : String
  sourceId : Int
  sourceTable : SourceTable
  name : String
  category : Category
  amount : Int
  date : Int
  description : Option String
  branchId : Option Int
  cashflowId : Option Int
  orgId : Option String
deriving DecidableEq

/-- CashflowInput.  The description field is optional and nullable:
none = key absent (undefined), some none = null, some (some s) = s. -/
structure CashflowInput where
  name : String
  category : Category
  amount : Int
  date : DateVal
  description : Option (Option String) := none
deriving DecidableEq

/-- A partial CashflowInput as passed to updateCashflow: every key may be
absent (none). -/
structure UpdateInput where
  name : Option String := none
  category : Option Category := none
  amount : Option Int := none
  date : Option DateVal := none
  description : Option (Option String) := none
deriving DecidableEq

/-- normalizeTimestamp: a missing (null), empty or unparseable timestamp is
replaced by the current instant, a parseable one by its own instant. -/
def normalizeTimestamp (now : Int) : Option DateVal → Int
  | none => now
  | some .empty => now
  | some .invalid => now
  | some (.valid ms) => ms

/-- normalizeDateInput: undefined, empty or unparseable input yields
undefined, a parseable one its ISO form (represented by its instant). -/
def normalizeDateInput : Option DateVal → Option Int
  | none => none
  | some .empty => none
  | some .invalid => none
  | some (.valid ms) => some ms

/-- mapIncomeRow, taking the current instant for timestamp normalization. -/
def mapIncomeRow (now : Int) (row : IncomeRow) : Cashflow :=
  { id := tableName .income ++ "-" ++ toString row.id
    sourceId := row.id
    sourceTable := .income
    name := row.income_type.getD "Income"
    category := .income
    amount := row.amount.getD 0
    date := normalizeTimestamp now row.created_at
    description := none
    branchId := row.branch_id
    cashflowId := row.cashflow_id
    orgId := row.org_id }

/-- mapExpenseRow, taking the current instant for timestamp normalization. -/
def mapExpenseRow (now : Int) (row : ExpenseRow) : Cashflow :=
  { id := tableName .expense ++ "-" ++ toString row.id
    sourceId := row.id
    sourceTable := .expense
    name := row.expense_category.getD "Expense"
    category := .expense
    amount := row.amount.getD 0
    date := normalizeTimestamp now row.created_at
    description := row.description
    branchId := row.branch_id
    cashflowId := row.cashflow_id
    orgId := row.org_id }

/-- A row of the profiles table, as selected by ensureProfile. -/
structure ProfileRow where
  id : String
  branch_id : Option Int
  org_id : Option String
  role : Option String
deriving DecidableEq

/-- The outcome of supabase.auth.getUser: an auth error, no user, or a
user id. -/
inductive AuthResult
  | err (msg : String)
  | noUser
  | ok (userId : String)
deriving DecidableEq

/-- The value ensureProfile resolves to on success. -/
structure ProfileInfo where
  userId : String
  branchId : Option Int
  orgId : Option String
  role : String
deriving DecidableEq

/-- The message thrown when a non-admin profile has no branch assignment. -/
def missingBranchMsg : String := "Your profile is missing a branch assignment"

/-- The message thrown by update and delete when the id is not in state. -/
def notFoundMsg : String := "Cashflow entry not found"

/-- ensureProfile: resolves the authenticated user's profile.  The profile
query oracle is the result of the single-row select on the profiles table
(error, no row, or a row).  Mirrors the JS falsy check on branch_id (null
and 0 both fail it) and the role-or-user default (null and the empty string
both default). -/
def ensureProfile (auth : AuthResult)
    (profileQuery : Except String (Option ProfileRow)) :
    Except String ProfileInfo :=
  match auth with
  | .err m => .error m
  | .noUser => .error "You must be logged in to access cashflows"
  | .ok uid =>
    match profileQuery with
    | .error m => .error m
    | .ok none => .error "Profile not found"
    | .ok (some profile) =>
      if profile.role ≠ some "admin" ∧ intTruthy profile.branch_id = false then
        .error missingBranchMsg
      else
        .ok { userId := uid
              branchId := profile.branch_id
              orgId := profile.org_id
              role := if strTruthy profile.role then profile.role.getD "user" else "user" }

/-- The insert payload built by buildInsertPayload.  Option-valued fields
whose outer layer means key present or absent.  The description key, when
present, still carries a nullable value. -/
structure InsertPayload where
  branch_id : Option Int
  user_id : String
  org_id : Option String
  amount : Int
  created_at : Int
  cashflow_id : Option Int
  income_type : Option String := none
  expense_category : Option String := none
  description : Option (Option String) := none
deriving DecidableEq

/-- buildInsertPayload: common base plus the category-specific columns. -/
def buildInsertPayload (payload : CashflowInput) (branchId : Option Int)
    (userId : String) (orgId : Option String) (now : Int) : InsertPayload :=
  let base : InsertPayload :=
    { branch_id := branchId
      user_id := userId
      org_id := orgId
      amount := payload.amount
      created_at := (normalizeDateInput (some payload.date)).getD now
      cashflow_id := none }
  match payload.category with
  | .income => { base with income_type := some payload.name }
  | .expense =>
      { base with
        expense_category := some payload.name
        description := some payload.description.join }

/-- The partial update record built for the backing-store update.  Each
outer none means the key is absent from the record sent. -/
structure UpdatePayload where
  amount : Option Int := none
  created_at : Option Int := none
  description : Option (Option String) := none
  income_type : Option String := none
  expense_category : Option String := none
deriving DecidableEq

/-- buildUpdatePayload: amount when defined; created_at when the date input
is truthy and parses; description whenever the key is defined (a null value
stays null). -/
def buildUpdatePayload (payload : UpdateInput) : UpdatePayload :=
  { amount := payload.amount
    created_at :=
      match payload.date with
      | some (.valid ms) => some ms
      | _ => none
    description := payload.description }

/-- The full update record updateCashflow sends: buildUpdatePayload, plus
name mapped to the table-specific column, with the description key deleted
when the target row lives in the income table. -/
def updatesFor (existing : Cashflow) (payload : UpdateInput) : UpdatePayload :=
  let u := buildUpdatePayload payload
  let u :=
    match payload.name with
    | some n =>
      match existing.sourceTable with
      | .income => { u with income_type := some n }
      | .expense => { u with expense_category := some n }
    | none => u
  match existing.sourceTable with
  | .income => { u with description := none }
  | .expense => u

/-- A ledger-mirror transaction as returned by the mirror list endpoint. -/
structure MirrorTx where
  id : String
  smeId : String
  type : Category
  amount : Int
  category : String
  description : String
  date : DateVal
  createdAt : DateVal
  updatedAt : DateVal
  blockchainStatus : String
deriving DecidableEq

/-- The body of a mirror create call. -/
structure MirrorCreatePayload where
  smeId : String
  type : Category
  amount : Int
  category : String
  description : String
  date : DateVal
deriving DecidableEq

/-- The synthetic tenant key template, orgId-branchId with JS null
rendering. -/
def smeString (orgId : Option String) (branchId : Option Int) : String :=
  jsStr orgId ++ "-" ++ jsInt branchId

/-- The value-equality match predicate used by update and delete to locate
a mirror entry for a unified record: mirror amount, category and type
against the record's amount, name and category. -/
def mirrorMatches (existing : Cashflow) (tx : MirrorTx) : Bool :=
  tx.amount == existing.amount && tx.category == existing.name &&
    decide (tx.type = existing.category)

/-- The zustand store's observable fields. -/
structure StoreState where
  cashflows : List Cashflow
  isLoading : Bool
  error : Option String
  userRole : Option String
deriving DecidableEq

/-- One external call issued by a store operation, in trace order. -/
inductive Action
  | profileFetch
  | selectIncome (orgEq : Option String) (branchEq : Option Int)
  | selectExpense (orgEq : Option String) (branchEq : Option Int)
  | insertIncome (p : InsertPayload)
  | insertExpense (p : InsertPayload)
  | primaryUpdate (t : SourceTable) (rowId : Int) (u : UpdatePayload)
  | primaryDelete (t : SourceTable) (rowId : Int)
  | mirrorList
  | mirrorCreate (p : MirrorCreatePayload)
  | mirrorDelete (id : String)
deriving DecidableEq

/-- The outcome of one store operation: the state it leaves behind, the
value it returns (ok) or throws (error), and the calls it issued. -/
structure Run (α : Type) where
  state : StoreState
  result : Except String α
  trace : List Action

/-- The eq filters fetchCashflows attaches to both table queries: admins
filter by org id when it is truthy, others by branch id when truthy. -/
def scopeFilters (info : ProfileInfo) : Option String × Option Int :=
  if info.role = "admin" then
    (if strTruthy info.orgId then info.orgId else none, none)
  else
    (none, if intTruthy info.branchId then info.branchId else none)

/-- The rows the income-table select returns under the given eq filters. -/
def incomeQueryRows (rows : List IncomeRow) (orgEq : Option String)
    (branchEq : Option Int) : List IncomeRow :=
  rows.filter fun r =>
    (match orgEq with | none => true | some o => r.org_id == some o) &&
    (match branchEq with | none => true | some b => r.branch_id == some b)

/-- The rows the expense-table select returns under the given eq filters. -/
def expenseQueryRows (rows : List ExpenseRow) (orgEq : Option String)
    (branchEq : Option Int) : List ExpenseRow :=
  rows.filter fun r =>
    (match orgEq with | none => true | some o => r.org_id == some o) &&
    (match branchEq with | none => true | some b => r.branch_id == some b)

/-- Descending-by-date order: a sorts before b when b's instant is at most
a's. -/
def byDateDesc (a b : Cashflow) : Prop := b.date ≤ a.date

instance : DecidableRel byDateDesc :=
  fun a b => inferInstanceAs (Decidable (b.date ≤ a.date))

instance : IsTotal Cashflow byDateDesc := ⟨fun a b => le_total b.date a.date⟩

instance : IsTrans Cashflow byDateDesc :=
  ⟨fun _ _ _ hab hbc => le_trans hbc hab⟩

/-- The client-side sort of the merged result sets, newest first (a stable
sort, matching the comparator on parsed dates). -/
def sortByDateDesc (l : List Cashflow) : List Cashflow :=
  l.insertionSort byDateDesc

/-- Oracle for one fetchCashflows call: auth and profile lookups, the two
table contents, an optional injected failure per query, and the clock. -/
structure FetchOracle where
  auth : AuthResult
  profileQuery : Except String (Option ProfileRow)
  incomeTable : List IncomeRow
  expenseTable : List ExpenseRow
  incomeErr : Option String
  expenseErr : Option String
  now : Int

/-- fetchCashflows: resolve the profile, issue both scoped queries, merge,
sort and store; on any failure reset to an empty list with the message in
the error field and rethrow. -/
def fetchCashflows (st : StoreState) (o : FetchOracle) : Run Unit :=
  let st1 : StoreState := { st with isLoading := true, error := none }
  match ensureProfile o.auth o.profileQuery with
  | .error m =>
      { state := { st1 with isLoading := false, error := some m, cashflows := [] }
        result := .error m
        trace := [.profileFetch] }
  | .ok info =>
      let st2 : StoreState := { st1 with userRole := some info.role }
      let f := scopeFilters info
      let tr : List Action :=
        [.profileFetch, .selectIncome f.1 f.2, .selectExpense f.1 f.2]
      match o.incomeErr with
      | some m =>
          { state := { st2 with isLoading := false, error := some m, cashflows := [] }
            result := .error m
            trace := tr }
      | none =>
        match o.expenseErr with
        | some m =>
            { state := { st2 with isLoading := false, error := some m, cashflows := [] }
              result := .error m
              trace := tr }
        | none =>
          let incomeEntries :=
            (incomeQueryRows o.incomeTable f.1 f.2).map (mapIncomeRow o.now)
          let expenseEntries :=
            (expenseQueryRows o.expenseTable f.1 f.2).map (mapExpenseRow o.now)
          let combined := sortByDateDesc (incomeEntries ++ expenseEntries)
          { state := { st2 with cashflows := combined, isLoading := false, error := none }
            result := .ok ()
            trace := tr }

/-- A row echoed back by an insert or update, tagged with its table. -/
inductive EchoRow
  | income (r : IncomeRow)
  | expense (r : ExpenseRow)
deriving DecidableEq

/-- Table-appropriate remapping of an echoed row. -/
def mapEcho (now : Int) : EchoRow → Cashflow
  | .income r => mapIncomeRow now r
  | .expense r => mapExpenseRow now r

/-- Oracle for one addCashflow call. -/
structure AddOracle where
  auth : AuthResult
  profileQuery : Except String (Option ProfileRow)
  insertIncome : Except String (Option IncomeRow)
  insertExpense : Except String (Option ExpenseRow)
  mirrorCreate : Except String Unit
  now : Int

/-- The insert outcome for the table the payload's category selects. -/
def insertEchoResult (o : AddOracle) : Category → Except String (Option EchoRow)
  | .income => o.insertIncome.map (fun r => r.map .income)
  | .expense => o.insertExpense.map (fun r => r.map .expense)

/-- The insert action addCashflow issues for the category-appropriate
table. -/
def insertActionFor (payload : CashflowInput) (info : ProfileInfo)
    (now : Int) : Action :=
  match payload.category with
  | .income =>
      .insertIncome (buildInsertPayload payload info.branchId info.userId info.orgId now)
  | .expense =>
      .insertExpense (buildInsertPayload payload info.branchId info.userId info.orgId now)

/-- The mirror create body addCashflow sends: inputs verbatim, with a
null-ish description collapsed to the empty string and the raw input
date. -/
def addMirrorPayload (payload : CashflowInput) (info : ProfileInfo) :
    MirrorCreatePayload :=
  { smeId := smeString info.orgId info.branchId
    type := payload.category
    amount := payload.amount
    category := payload.name
    description := payload.description.join.getD ""
    date := payload.date }

/-- addCashflow: resolve the profile, insert into the category-appropriate
table, remap the echoed row, attempt the mirror create (its outcome is
swallowed), then prepend the record to state.  A missing echo row returns
null before any mirror work. -/
def addCashflow (st : StoreState) (payload : CashflowInput) (o : AddOracle) :
    Run (Option Cashflow) :=
  match ensureProfile o.auth o.profileQuery with
  | .error m => { state := st, result := .error m, trace := [.profileFetch] }
  | .ok info =>
    let insertAct := insertActionFor payload info o.now
    match insertEchoResult o payload.category with
    | .error m =>
        { state := st, result := .error m, trace := [.profileFetch, insertAct] }
    | .ok none =>
        { state := st, result := .ok none, trace := [.profileFetch, insertAct] }
    | .ok (some row) =>
      let normalized := mapEcho o.now row
      { state := { st with cashflows := normalized :: st.cashflows }
        result := .ok (some normalized)
        trace := [.profileFetch, insertAct, .mirrorCreate (addMirrorPayload payload info)] }

/-- Oracle for one updateCashflow call.  The auth and profile fields feed
the ensureProfile call made inside the mirror block. -/
structure UpdateOracle where
  updateIncome : Except String (Option IncomeRow)
  updateExpense : Except String (Option ExpenseRow)
  mirrorList : Except String (List MirrorTx)
  mirrorDelete : Except String Unit
  auth : AuthResult
  profileQuery : Except String (Option ProfileRow)
  mirrorCreate : Except String Unit
  now : Int

/-- The update outcome for the table the existing record lives in. -/
def updateEchoResult (o : UpdateOracle) : SourceTable → Except String (Option EchoRow)
  | .income => o.updateIncome.map (fun r => r.map .income)
  | .expense => o.updateExpense.map (fun r => r.map .expense)

/-- The mirror create body updateCashflow sends after reconciling: the
post-update record's values under the re-resolved tenant key. -/
def updateMirrorCreatePayload (info : ProfileInfo) (normalized : Cashflow) :
    MirrorCreatePayload :=
  { smeId := smeString info.orgId info.branchId
    type := normalized.category
    amount := normalized.amount
    category := normalized.name
    description := normalized.description.getD ""
    date := .valid normalized.date }

/-- The calls issued by updateCashflow's mirror block: list the mirror,
delete the first value-equal match of the pre-update record if any (a
failing delete aborts the block), then re-resolve the profile and create a
fresh entry from the post-update record.  Every failure inside the block
is swallowed by the caller. -/
def updateMirrorTrace (o : UpdateOracle) (existing normalized : Cashflow) :
    List Action :=
  match o.mirrorList with
  | .error _ => [.mirrorList]
  | .ok txns =>
    let afterDelete : List Action × Bool :=
      match txns.find? (mirrorMatches existing) with
      | some tx =>
          ([.mirrorList, .mirrorDelete tx.id],
           match o.mirrorDelete with | .ok _ => true | .error _ => false)
      | none => ([.mirrorList], true)
    if afterDelete.2 then
      match ensureProfile o.auth o.profileQuery with
      | .error _ => afterDelete.1 ++ [.profileFetch]
      | .ok info =>
          afterDelete.1 ++
            [.profileFetch, .mirrorCreate (updateMirrorCreatePayload info normalized)]
    else afterDelete.1

/-- updateCashflow: find the record in state (else throw not-found), send
the stripped partial payload to its table, remap the echoed row, run the
swallowed mirror block, then replace the record in state by id. -/
def updateCashflow (st : StoreState) (id : String) (payload : UpdateInput)
    (o : UpdateOracle) : Run (Option Cashflow) :=
  match st.cashflows.find? (fun cf => cf.id == id) with
  | none => { state := st, result := .error notFoundMsg, trace := [] }
  | some existing =>
    let u := updatesFor existing payload
    let updAct : Action := .primaryUpdate existing.sourceTable existing.sourceId u
    match updateEchoResult o existing.sourceTable with
    | .error m => { state := st, result := .error m, trace := [updAct] }
    | .ok none => { state := st, result := .ok none, trace := [updAct] }
    | .ok (some row) =>
      let normalized := mapEcho o.now row
      { state :=
          { st with
            cashflows :=
              st.cashflows.map (fun cf => if cf.id == id then normalized else cf) }
        result := .ok (some normalized)
        trace := updAct :: updateMirrorTrace o existing normalized }

/-- Oracle for one deleteCashflow call. -/
structure DeleteOracle where
  deleteResult : Except String Unit
  mirrorList : Except String (List MirrorTx)
  mirrorDelete : Except String Unit

/-- The calls issued by deleteCashflow's mirror block: list the mirror and
delete the first value-equal match if any; failures are swallowed. -/
def deleteMirrorTrace (o : DeleteOracle) (existing : Cashflow) : List Action :=
  match o.mirrorList with
  | .error _ => [.mirrorList]
  | .ok txns =>
    match txns.find? (mirrorMatches existing) with
    | some tx => [.mirrorList, .mirrorDelete tx.id]
    | none => [.mirrorList]

/-- deleteCashflow: find the record in state (else throw not-found with no
external call), delete its backing row, run the swallowed mirror block,
then drop the record from state. -/
def deleteCashflow (st : StoreState) (id : String) (o : DeleteOracle) : Run Unit :=
  match st.cashflows.find? (fun cf => cf.id == id) with
  | none => { state := st, result := .error notFoundMsg, trace := [] }
  | some existing =>
    match o.deleteResult with
    | .error m =>
        { state := st
          result := .error m
          trace := [.primaryDelete existing.sourceTable existing.sourceId] }
    | .ok _ =>
        { state :=
            { st with cashflows := st.cashflows.filter (fun cf => !(cf.id == id)) }
          result := .ok ()
          trace :=
            .primaryDelete existing.sourceTable existing.sourceId ::
              deleteMirrorTrace o existing }

/-! Concrete fixtures shared by witnesses and counterexamples. -/

/-- The empty initial store state. -/
def emptyState : StoreState :=
  { cashflows := [], isLoading := false, error := none, userRole := none }

/-- A sample income row dated 2024-01-02T00:00:00Z (epoch ms). -/
def sampleIncomeRow : IncomeRow :=
  { id := 1, branch_id := some 1, user_id := some "u1", org_id := some "o1"
    created_at := some (.valid 1704153600000), amount := some 100
    income_type := some "Sales", cashflow_id := none }

/-- A sample expense row dated 2024-01-03T00:00:00Z (epoch ms). -/
def sampleExpenseRow : ExpenseRow :=
  { id := 1, branch_id := some 1, user_id := some "u1", org_id := some "o1"
    created_at := some (.valid 1704240000000), amount := some 50
    expense_category := some "Rent", description := some "office"
    cashflow_id := none }

/-- A state holding the one mapped sample income record. -/
def sampleState : StoreState :=
  { cashflows := [mapIncomeRow 0 sampleIncomeRow], isLoading := false
    error := none, userRole := some "user" }

/-- A user-role profile row with a branch assignment. -/
def branchUserProfile : ProfileRow :=
  { id := "u1", branch_id := some 1, org_id := some "o1", role := some "user" }

/-- A user-role profile row with no branch assignment. -/
def userNoBranchProfile : ProfileRow :=
  { id := "u1", branch_id := none, org_id := some "o1", role := some "user" }

/-- An admin profile row with no organization id. -/
def adminNoOrgProfile : ProfileRow :=
  { id := "a1", branch_id := none, org_id := none, role := some "admin" }

/-- A benign delete oracle. -/
def happyDeleteOracle : DeleteOracle :=
  { deleteResult := .ok (), mirrorList := .ok [], mirrorDelete := .ok () }

/-! Claim theorems. -/

/-- C8: a delete whose unified id is absent from the in-memory state fails
with the record-not-found error, issues no backing-store call and no
mirror call (empty trace), and leaves the state unchanged. -/
theorem delete_not_found (st : StoreState) (id : String) (o : DeleteOracle)
    (h : st.cashflows.find? (fun cf => cf.id == id) = none) :
    deleteCashflow st id o =
      { state := st, result := .error notFoundMsg, trace := [] } := by
  unfold deleteCashflow
  rw [h]

/-- Witness for C8 at the scenario input: deleting the absent id
expense-9999 from a state holding one income record. -/
theorem delete_not_found_witness :
    sampleState.cashflows.find? (fun cf => cf.id == "expense-9999") = none ∧
    deleteCashflow sampleState "expense-9999" happyDeleteOracle =
      { state := sampleState, result := .error notFoundMsg, trace := [] } :=
  ⟨by decide, delete_not_found sampleState "expense-9999" happyDeleteOracle (by decide)⟩

/-- C10: when the primary insert succeeds but echoes no row, addCashflow
returns null, issues no mirror create (the trace holds only the profile
fetch and the insert), and leaves the in-memory list untouched. -/
theorem add_no_echo (st : StoreState) (payload : CashflowInput) (o : AddOracle)
    (info : ProfileInfo)
    (hprof : ensureProfile o.auth o.profileQuery = .ok info)
    (hecho : insertEchoResult o payload.category = .ok none) :
    addCashflow st payload o =
      { state := st
        result := .ok none
        trace := [.profileFetch, insertActionFor payload info o.now] } := by
  unfold addCashflow
  rw [hprof, hecho]

/-- Witness for C10: a concrete income add whose insert echoes no row. -/
theorem add_no_echo_witness :
    ensureProfile (AddOracle.mk (.ok "u1") (.ok (some branchUserProfile))
        (.ok none) (.ok none) (.ok ()) 0).auth
        (AddOracle.mk (.ok "u1") (.ok (some branchUserProfile))
        (.ok none) (.ok none) (.ok ()) 0).profileQuery =
      .ok { userId := "u1", branchId := some 1, orgId := some "o1", role := "user" } ∧
    addCashflow emptyState
        { name := "Sales", category := .income, amount := 5, date := .valid 0 }
        (AddOracle.mk (.ok "u1") (.ok (some branchUserProfile))
          (.ok none) (.ok none) (.ok ()) 0) =
      { state := emptyState
        result := .ok none
        trace := [.profileFetch,
          insertActionFor
            { name := "Sales", category := .income, amount := 5, date := .valid 0 }
            { userId := "u1", branchId := some 1, orgId := some "o1", role := "user" } 0] } :=
  ⟨by decide,
   add_no_echo emptyState
     { name := "Sales", category := .income, amount := 5, date := .valid 0 }
     (AddOracle.mk (.ok "u1") (.ok (some branchUserProfile))
       (.ok none) (.ok none) (.ok ()) 0)
     { userId := "u1", branchId := some 1, orgId := some "o1", role := "user" }
     (by decide) (by decide)⟩

/-- An income row whose source timestamp is missing. -/
def noDateIncomeRow : IncomeRow :=
  { id := 3, branch_id := some 1, user_id := some "u1", org_id := some "o1"
    created_at := none, amount := some 7, income_type := some "Sales"
    cashflow_id := none }

/-- C9 counterexample: on a row with a missing source timestamp the mapper
substitutes the current instant, so two applications at distinct instants
yield different outputs — the mapping is not clock-independent. -/
theorem mapIncomeRow_clock_dependent :
    mapIncomeRow 0 noDateIncomeRow ≠ mapIncomeRow 1 noDateIncomeRow := by
  decide

/-- C9 amended: mapIncomeRow is a pure function of the row and the clock
instant; two applications agree for every row whose timestamp parses, and
for a missing, empty or unparseable timestamp they agree exactly when the
two clock instants agree. -/
theorem mapIncomeRow_deterministic (row : IncomeRow) (n₁ n₂ : Int) :
    (∀ ms, row.created_at = some (.valid ms) →
      mapIncomeRow n₁ row = mapIncomeRow n₂ row) ∧
    ((row.created_at = none ∨ row.created_at = some .empty ∨
        row.created_at = some .invalid) →
      (mapIncomeRow n₁ row = mapIncomeRow n₂ row ↔ n₁ = n₂)) := by
  constructor
  · intro ms h
    simp [mapIncomeRow, normalizeTimestamp, h]
  · intro h
    rcases h with h | h | h <;>
      simp [mapIncomeRow, normalizeTimestamp, h, Cashflow.mk.injEq]

/-- Witness for C9 amended: the sample row (parseable timestamp) maps
identically at instants 3 and 7; the missing-timestamp row maps
identically at 3 and 7 only if 3 = 7. -/
theorem mapIncomeRow_deterministic_witness :
    mapIncomeRow 3 sampleIncomeRow = mapIncomeRow 7 sampleIncomeRow ∧
    (mapIncomeRow 3 noDateIncomeRow = mapIncomeRow 7 noDateIncomeRow ↔
      (3 : Int) = 7) :=
  ⟨(mapIncomeRow_deterministic sampleIncomeRow 3 7).1 1704153600000 rfl,
   (mapIncomeRow_deterministic noDateIncomeRow 3 7).2 (Or.inl rfl)⟩

/-- The stripped update payload for an income-table record never carries a
description key. -/
theorem updatesFor_income_description (ex : Cashflow) (p : UpdateInput)
    (h : ex.sourceTable = .income) : (updatesFor ex p).description = none := by
  unfold updatesFor
  rw [h]

/-- The mirror block of updateCashflow issues no primary-store update. -/
theorem updateMirrorTrace_no_primary (o : UpdateOracle) (ex nm : Cashflow)
    (t : SourceTable) (rid : Int) (u : UpdatePayload) :
    Action.primaryUpdate t rid u ∉ updateMirrorTrace o ex nm := by
  unfold updateMirrorTrace
  cases hml : o.mirrorList with
  | error m => simp
  | ok txns =>
    cases hfind : txns.find? (mirrorMatches ex) with
    | none =>
      cases hprof : ensureProfile o.auth o.profileQuery with
      | error m => simp [hfind, hprof]
      | ok info => simp [hfind, hprof]
    | some tx =>
      cases hdel : o.mirrorDelete with
      | error m => simp [hfind, hdel]
      | ok v =>
        cases hprof : ensureProfile o.auth o.profileQuery with
        | error m => simp [hfind, hdel, hprof]
        | ok info => simp [hfind, hdel, hprof]

/-- C7: income records never carry a description (the mapper forces it to
null), and any primary-store update payload sent for an income-table
record contains no description key, even when the update input includes
one. -/
theorem income_never_description :
    (∀ (now : Int) (row : IncomeRow), (mapIncomeRow now row).description = none) ∧
    (∀ (st : StoreState) (id : String) (payload : UpdateInput) (o : UpdateOracle)
       (ex : Cashflow),
      st.cashflows.find? (fun cf => cf.id == id) = some ex →
      ex.sourceTable = .income →
      ∀ t rid u,
        Action.primaryUpdate t rid u ∈ (updateCashflow st id payload o).trace →
        u.description = none) := by
  constructor
  · intro now row
    rfl
  · intro st id payload o ex hfind hinc t rid u hmem
    cases hres : updateEchoResult o ex.sourceTable with
    | error m =>
      simp only [updateCashflow, hfind, hres, List.mem_singleton,
        Action.primaryUpdate.injEq] at hmem
      rw [hmem.2.2]
      exact updatesFor_income_description ex payload hinc
    | ok oe =>
      cases oe with
      | none =>
        simp only [updateCashflow, hfind, hres, List.mem_singleton,
          Action.primaryUpdate.injEq] at hmem
        rw [hmem.2.2]
        exact updatesFor_income_description ex payload hinc
      | some row =>
        simp only [updateCashflow, hfind, hres, List.mem_cons,
          Action.primaryUpdate.injEq] at hmem
        rcases hmem with ⟨_, _, hu⟩ | hmem
        · rw [hu]
          exact updatesFor_income_description ex payload hinc
        · exact absurd hmem (updateMirrorTrace_no_primary o ex (mapEcho o.now row) t rid u)

/-- An update input carrying only a description. -/
def descUpdateInput : UpdateInput := { description := some (some "x") }

/-- A benign update oracle over the sample income row's table. -/
def happyUpdateOracle : UpdateOracle :=
  { updateIncome := .ok (some sampleIncomeRow), updateExpense := .ok none
    mirrorList := .ok [], mirrorDelete := .ok ()
    auth := .ok "u1", profileQuery := .ok (some branchUserProfile)
    mirrorCreate := .ok (), now := 0 }

/-- Witness for C7: a mapped sample row has a null description, and the
payload sent by a concrete description-bearing update of an income record
carries no description key. -/
theorem income_never_description_witness :
    (mapIncomeRow 0 sampleIncomeRow).description = none ∧
    (updatesFor (mapIncomeRow 0 sampleIncomeRow) descUpdateInput).description = none :=
  ⟨income_never_description.1 0 sampleIncomeRow,
   income_never_description.2 sampleState "income_transaction-1" descUpdateInput
     happyUpdateOracle (mapIncomeRow 0 sampleIncomeRow) (by decide) rfl
     .income 1 (updatesFor (mapIncomeRow 0 sampleIncomeRow) descUpdateInput)
     (by decide)⟩

/-- C5: when either table query of fetch fails, the stored state is reset
to an empty record list with the failing message retained in the error
field, and the same message is thrown to the caller; no partial results
from the other query are kept. -/
theorem fetch_query_failure (st : StoreState) (o : FetchOracle)
    (info : ProfileInfo) (m : String)
    (hprof : ensureProfile o.auth o.profileQuery = .ok info)
    (herr : o.incomeErr = some m ∨ (o.incomeErr = none ∧ o.expenseErr = some m)) :
    (fetchCashflows st o).state =
      { cashflows := [], isLoading := false, error := some m
        userRole := some info.role } ∧
    (fetchCashflows st o).result = .error m := by
  rcases herr with h | ⟨h1, h2⟩
  · simp [fetchCashflows, hprof, h]
  · simp [fetchCashflows, hprof, h1, h2]

/-- A fetch oracle whose income query fails. -/
def failingFetchOracle : FetchOracle :=
  { auth := .ok "u1", profileQuery := .ok (some branchUserProfile)
    incomeTable := [sampleIncomeRow], expenseTable := [sampleExpenseRow]
    incomeErr := some "boom", expenseErr := none, now := 0 }

/-- Witness for C5: a concrete failing income query resets the state and
rethrows the same message. -/
theorem fetch_query_failure_witness :
    ensureProfile failingFetchOracle.auth failingFetchOracle.profileQuery =
      .ok { userId := "u1", branchId := some 1, orgId := some "o1", role := "user" } ∧
    (fetchCashflows sampleState failingFetchOracle).state =
      { cashflows := [], isLoading := false, error := some "boom"
        userRole := some "user" } ∧
    (fetchCashflows sampleState failingFetchOracle).result = .error "boom" :=
  ⟨by decide,
   fetch_query_failure sampleState failingFetchOracle
     { userId := "u1", branchId := some 1, orgId := some "o1", role := "user" }
     "boom" (by decide) (Or.inl rfl)⟩

/-- A profile with a user role and no branch fails ensureProfile with the
missing-branch message. -/
theorem ensureProfile_missing_branch (uid : String) (prof : ProfileRow)
    (hrole : prof.role ≠ some "admin") (hbranch : prof.branch_id = none) :
    ensureProfile (.ok uid) (.ok (some prof)) = .error missingBranchMsg := by
  simp [ensureProfile, hbranch, intTruthy, hrole]

/-- An update input carrying only an amount. -/
def amountUpdateInput : UpdateInput := { amount := some 42 }

/-- The row echoed by the sample primary update. -/
def updatedIncomeRow : IncomeRow := { sampleIncomeRow with amount := some 42 }

/-- An update oracle whose profile lookup yields the branchless user. -/
def noBranchUpdateOracle : UpdateOracle :=
  { updateIncome := .ok (some updatedIncomeRow), updateExpense := .ok none
    mirrorList := .ok [], mirrorDelete := .ok ()
    auth := .ok "u1", profileQuery := .ok (some userNoBranchProfile)
    mirrorCreate := .ok (), now := 0 }

/-- C3 counterexample: with a user-role profile lacking a branch
assignment the profile resolver does fail with the missing-branch error,
yet updateCashflow completes and returns the updated record: the resolver
runs only inside the swallowed mirror block, so the operation does not
abort. -/
theorem update_ignores_missing_branch :
    userNoBranchProfile.role = some "user" ∧
    userNoBranchProfile.branch_id = none ∧
    ensureProfile noBranchUpdateOracle.auth noBranchUpdateOracle.profileQuery =
      .error missingBranchMsg ∧
    (updateCashflow sampleState "income_transaction-1" amountUpdateInput
        noBranchUpdateOracle).result =
      .ok (some (mapIncomeRow 0 updatedIncomeRow)) := by
  decide

/-- C3 amended: for every user-role profile with no branch assignment,
fetch and add abort with the missing-branch-assignment error (fetch also
records it in state and keeps no records), while update resolves the
profile only inside the swallowed mirror block: whenever its primary
update echoes a row, update completes and returns the remapped record. -/
theorem missing_branch_scoped (prof : ProfileRow) (uid : String)
    (hrole : prof.role = some "user") (hbranch : prof.branch_id = none) :
    (∀ (st : StoreState) (o : FetchOracle),
      o.auth = .ok uid → o.profileQuery = .ok (some prof) →
      (fetchCashflows st o).result = .error missingBranchMsg ∧
      (fetchCashflows st o).state.error = some missingBranchMsg ∧
      (fetchCashflows st o).state.cashflows = []) ∧
    (∀ (st : StoreState) (payload : CashflowInput) (o : AddOracle),
      o.auth = .ok uid → o.profileQuery = .ok (some prof) →
      (addCashflow st payload o).result = .error missingBranchMsg ∧
      (addCashflow st payload o).state = st) ∧
    (∀ (st : StoreState) (id : String) (payload : UpdateInput) (o : UpdateOracle)
       (ex : Cashflow) (row : EchoRow),
      o.auth = .ok uid → o.profileQuery = .ok (some prof) →
      st.cashflows.find? (fun cf => cf.id == id) = some ex →
      updateEchoResult o ex.sourceTable = .ok (some row) →
      (updateCashflow st id payload o).result = .ok (some (mapEcho o.now row))) := by
  have hmb := ensureProfile_missing_branch uid prof (by rw [hrole]; simp) hbranch
  refine ⟨?_, ?_, ?_⟩
  · intro st o ha hq
    have hp : ensureProfile o.auth o.profileQuery = .error missingBranchMsg := by
      rw [ha, hq]; exact hmb
    refine ⟨?_, ?_, ?_⟩ <;> simp [fetchCashflows, hp]
  · intro st payload o ha hq
    have hp : ensureProfile o.auth o.profileQuery = .error missingBranchMsg := by
      rw [ha, hq]; exact hmb
    refine ⟨?_, ?_⟩ <;> simp [addCashflow, hp]
  · intro st id payload o ex row ha hq hfind hrow
    simp [updateCashflow, hfind, hrow]

/-- A fetch oracle for the branchless user. -/
def noBranchFetchOracle : FetchOracle :=
  { auth := .ok "u1", profileQuery := .ok (some userNoBranchProfile)
    incomeTable := [], expenseTable := [], incomeErr := none
    expenseErr := none, now := 0 }

/-- A sample income add input. -/
def sampleAddInput : CashflowInput :=
  { name := "Sales", category := .income, amount := 5, date := .valid 0 }

/-- An add oracle for the branchless user. -/
def noBranchAddOracle : AddOracle :=
  { auth := .ok "u1", profileQuery := .ok (some userNoBranchProfile)
    insertIncome := .ok none, insertExpense := .ok none
    mirrorCreate := .ok (), now := 0 }

/-- Witness for C3 amended, at the branchless user profile. -/
theorem missing_branch_scoped_witness :
    (fetchCashflows emptyState noBranchFetchOracle).result = .error missingBranchMsg ∧
    (addCashflow emptyState sampleAddInput noBranchAddOracle).result = .error missingBranchMsg ∧
    (updateCashflow sampleState "income_transaction-1" amountUpdateInput
        noBranchUpdateOracle).result = .ok (some (mapIncomeRow 0 updatedIncomeRow)) :=
  ⟨((missing_branch_scoped userNoBranchProfile "u1" rfl rfl).1
      emptyState noBranchFetchOracle rfl rfl).1,
   ((missing_branch_scoped userNoBranchProfile "u1" rfl rfl).2.1
      emptyState sampleAddInput noBranchAddOracle rfl rfl).1,
   (missing_branch_scoped userNoBranchProfile "u1" rfl rfl).2.2
      sampleState "income_transaction-1" amountUpdateInput noBranchUpdateOracle
      (mapIncomeRow 0 sampleIncomeRow) (.income updatedIncomeRow)
      rfl rfl (by decide) rfl⟩

/-- A truthy nullable string is some value. -/
theorem strTruthy_some (x : Option String) (h : strTruthy x = true) :
    ∃ s, x = some s := by
  cases x with
  | none => simp [strTruthy] at h
  | some s => exact ⟨s, rfl⟩

/-- A truthy nullable integer is some value. -/
theorem intTruthy_some (x : Option Int) (h : intTruthy x = true) :
    ∃ n, x = some n := by
  cases x with
  | none => simp [intTruthy] at h
  | some n => exact ⟨n, rfl⟩

/-- Field facts of a successful profile resolution: branch and org are the
profile row's, and a non-admin resolved role forces a truthy branch. -/
theorem ensureProfile_fields (uid : String) (prof : ProfileRow)
    (info : ProfileInfo)
    (h : ensureProfile (.ok uid) (.ok (some prof)) = .ok info) :
    info.branchId = prof.branch_id ∧ info.orgId = prof.org_id ∧
    (info.role ≠ "admin" → intTruthy info.branchId = true) := by
  simp only [ensureProfile] at h
  by_cases hc : prof.role ≠ some "admin" ∧ intTruthy prof.branch_id = false
  · rw [if_pos hc] at h
    exact absurd h (by simp)
  · rw [if_neg hc] at h
    simp only [Except.ok.injEq] at h
    subst h
    refine ⟨rfl, rfl, ?_⟩
    intro hrole
    push_neg at hc
    by_cases hadm : prof.role = some "admin"
    · exact absurd (by simp [hadm, strTruthy]) hrole
    · simpa using hc hadm

/-- Any successful resolution comes from an ok auth and a present profile
row. -/
theorem ensureProfile_ok_shape (auth : AuthResult)
    (pq : Except String (Option ProfileRow)) (info : ProfileInfo)
    (h : ensureProfile auth pq = .ok info) :
    ∃ uid prof, auth = .ok uid ∧ pq = .ok (some prof) := by
  cases auth with
  | err m => simp [ensureProfile] at h
  | noUser => simp [ensureProfile] at h
  | ok uid =>
    cases pq with
    | error m => simp [ensureProfile] at h
    | ok op =>
      cases op with
      | none => simp [ensureProfile] at h
      | some prof => exact ⟨uid, prof, rfl, rfl⟩

/-- The record list a successful fetch stores: the stable descending sort
of the two mapped, scope-filtered result sets. -/
theorem fetchCashflows_success_cashflows (st : StoreState) (o : FetchOracle)
    (info : ProfileInfo)
    (hprof : ensureProfile o.auth o.profileQuery = .ok info)
    (hie : o.incomeErr = none) (hee : o.expenseErr = none) :
    (fetchCashflows st o).state.cashflows =
      sortByDateDesc
        ((incomeQueryRows o.incomeTable (scopeFilters info).1
            (scopeFilters info).2).map (mapIncomeRow o.now) ++
         (expenseQueryRows o.expenseTable (scopeFilters info).1
            (scopeFilters info).2).map (mapExpenseRow o.now)) := by
  simp [fetchCashflows, hprof, hie, hee]

/-- An income row belonging to organization X. -/
def orgXIncomeRow : IncomeRow :=
  { id := 2, branch_id := some 9, user_id := some "u2", org_id := some "X"
    created_at := some (.valid 0), amount := some 10
    income_type := some "Misc", cashflow_id := none }

/-- A fetch oracle for the org-less admin over a table holding an org-X
row. -/
def adminNullOrgFetchOracle : FetchOracle :=
  { auth := .ok "a1", profileQuery := .ok (some adminNoOrgProfile)
    incomeTable := [orgXIncomeRow], expenseTable := []
    incomeErr := none, expenseErr := none, now := 0 }

/-- C4 counterexample: an admin profile with a null org id gets no org
filter at all, so fetch returns a record whose orgId (X) differs from the
profile's null org: the claimed scoping fails in exactly the null-org
admin case the claim includes. -/
theorem fetch_admin_null_org_unscoped :
    adminNoOrgProfile.role = some "admin" ∧
    adminNoOrgProfile.org_id = none ∧
    ((fetchCashflows emptyState adminNullOrgFetchOracle).state.cashflows.map
        Cashflow.orgId) = [some "X"] := by
  decide

/-- C4 amended: for admin profiles fetch applies the org filter only when
the profile's org id is truthy (non-null, non-empty), and then every
returned record carries that org; for non-admin profiles (whose branch is
necessarily truthy after profile validation) every returned record
carries the profile's branch.  An admin with a null or empty org id gets
no filter, as the counterexample shows. -/
theorem fetch_scoping (st : StoreState) (o : FetchOracle) (info : ProfileInfo)
    (hprof : ensureProfile o.auth o.profileQuery = .ok info)
    (hie : o.incomeErr = none) (hee : o.expenseErr = none) :
    (info.role = "admin" → strTruthy info.orgId = true →
      ∀ c ∈ (fetchCashflows st o).state.cashflows, c.orgId = info.orgId) ∧
    (info.role ≠ "admin" →
      ∀ c ∈ (fetchCashflows st o).state.cashflows, c.branchId = info.branchId) := by
  have hcf := fetchCashflows_success_cashflows st o info hprof hie hee
  constructor
  · intro hadmin horg c hc
    rw [hcf] at hc
    have hc2 := (List.mem_insertionSort byDateDesc).1 hc
    obtain ⟨s, hs⟩ := strTruthy_some info.orgId horg
    have hf1 : (scopeFilters info).1 = some s := by
      rw [hs] at horg
      simp [scopeFilters, hadmin, horg, hs]
    rcases List.mem_append.1 hc2 with hci | hce
    · rcases List.mem_map.1 hci with ⟨r, hr, hmap⟩
      rw [incomeQueryRows, hf1] at hr
      have hcond := (List.mem_filter.1 hr).2
      simp only [Bool.and_eq_true, beq_iff_eq] at hcond
      rw [← hmap, hs]
      simpa [mapIncomeRow] using hcond.1
    · rcases List.mem_map.1 hce with ⟨r, hr, hmap⟩
      rw [expenseQueryRows, hf1] at hr
      have hcond := (List.mem_filter.1 hr).2
      simp only [Bool.and_eq_true, beq_iff_eq] at hcond
      rw [← hmap, hs]
      simpa [mapExpenseRow] using hcond.1
  · intro huser c hc
    rw [hcf] at hc
    have hc2 := (List.mem_insertionSort byDateDesc).1 hc
    obtain ⟨uid, prof, ha, hq⟩ := ensureProfile_ok_shape o.auth o.profileQuery info hprof
    have hbr := (ensureProfile_fields uid prof info (by rw [← ha, ← hq]; exact hprof)).2.2 huser
    obtain ⟨b, hb⟩ := intTruthy_some info.branchId hbr
    have hf2 : (scopeFilters info).2 = some b := by
      rw [hb] at hbr
      simp [scopeFilters, huser, hbr, hb]
    rcases List.mem_append.1 hc2 with hci | hce
    · rcases List.mem_map.1 hci with ⟨r, hr, hmap⟩
      rw [incomeQueryRows, hf2] at hr
      have hcond := (List.mem_filter.1 hr).2
      simp only [Bool.and_eq_true, beq_iff_eq] at hcond
      rw [← hmap, hb]
      simpa [mapIncomeRow] using hcond.2
    · rcases List.mem_map.1 hce with ⟨r, hr, hmap⟩
      rw [expenseQueryRows, hf2] at hr
      have hcond := (List.mem_filter.1 hr).2
      simp only [Bool.and_eq_true, beq_iff_eq] at hcond
      rw [← hmap, hb]
      simpa [mapExpenseRow] using hcond.2

/-- An admin profile row scoped to organization o1. -/
def adminOrgProfile : ProfileRow :=
  { id := "a1", branch_id := none, org_id := some "o1", role := some "admin" }

/-- A fetch oracle for the o1 admin over tables holding rows of two
organizations. -/
def adminOrgFetchOracle : FetchOracle :=
  { auth := .ok "a1", profileQuery := .ok (some adminOrgProfile)
    incomeTable := [sampleIncomeRow, orgXIncomeRow]
    expenseTable := [sampleExpenseRow]
    incomeErr := none, expenseErr := none, now := 0 }

/-- Witness for C4 amended: the o1 admin sees only o1 records. -/
theorem fetch_scoping_witness :
    ensureProfile adminOrgFetchOracle.auth adminOrgFetchOracle.profileQuery =
      .ok { userId := "a1", branchId := none, orgId := some "o1", role := "admin" } ∧
    strTruthy (some "o1") = true ∧
    ∀ c ∈ (fetchCashflows emptyState adminOrgFetchOracle).state.cashflows,
      c.orgId = some "o1" :=
  ⟨by decide, by decide,
   (fetch_scoping emptyState adminOrgFetchOracle
       { userId := "a1", branchId := none, orgId := some "o1", role := "admin" }
       (by decide) rfl rfl).1 rfl rfl⟩

/-- C6: a successful fetch stores exactly the merge of the mapped income
and expense result sets sorted by date descending: the stored list equals
the stable descending-by-date sort of the merge, is sorted descending by
date, and is a permutation of the merge. -/
theorem fetch_merge_sorted (st : StoreState) (o : FetchOracle)
    (info : ProfileInfo)
    (hprof : ensureProfile o.auth o.profileQuery = .ok info)
    (hie : o.incomeErr = none) (hee : o.expenseErr = none) :
    (fetchCashflows st o).state.cashflows =
      sortByDateDesc
        ((incomeQueryRows o.incomeTable (scopeFilters info).1
            (scopeFilters info).2).map (mapIncomeRow o.now) ++
         (expenseQueryRows o.expenseTable (scopeFilters info).1
            (scopeFilters info).2).map (mapExpenseRow o.now)) ∧
    List.Sorted byDateDesc (fetchCashflows st o).state.cashflows ∧
    (fetchCashflows st o).state.cashflows.Perm
      ((incomeQueryRows o.incomeTable (scopeFilters info).1
          (scopeFilters info).2).map (mapIncomeRow o.now) ++
       (expenseQueryRows o.expenseTable (scopeFilters info).1
          (scopeFilters info).2).map (mapExpenseRow o.now)) := by
  have hcf := fetchCashflows_success_cashflows st o info hprof hie hee
  refine ⟨hcf, ?_, ?_⟩
  · rw [hcf]
    unfold sortByDateDesc
    exact List.sorted_insertionSort byDateDesc _
  · rw [hcf]
    unfold sortByDateDesc
    exact List.perm_insertionSort byDateDesc _

/-- The fetch oracle realizing the claim's merge-ordering scenario. -/
def mergeFetchOracle : FetchOracle :=
  { auth := .ok "u1", profileQuery := .ok (some branchUserProfile)
    incomeTable := [sampleIncomeRow], expenseTable := [sampleExpenseRow]
    incomeErr := none, expenseErr := none, now := 0 }

/-- Witness for C6 at the claim's scenario: income row id 1, amount 100,
dated 2024-01-02 and expense row id 1, amount 50, dated 2024-01-03 for
the same branch yield the list expense-1 then income-1, sorted descending
by date. -/
theorem fetch_merge_sorted_witness :
    (fetchCashflows emptyState mergeFetchOracle).state.cashflows =
      [mapExpenseRow 0 sampleExpenseRow, mapIncomeRow 0 sampleIncomeRow] ∧
    List.Sorted byDateDesc (fetchCashflows emptyState mergeFetchOracle).state.cashflows :=
  ⟨by decide,
   (fetch_merge_sorted emptyState mergeFetchOracle
      { userId := "u1", branchId := some 1, orgId := some "o1", role := "user" }
      (by decide) rfl rfl).2.1⟩

/-- The mirror block's calls on the happy path: one list fetch, the delete
of the first value-equal match when one exists, one profile fetch, one
create of the post-update payload. -/
theorem updateMirrorTrace_happy (o : UpdateOracle) (ex nm : Cashflow)
    (txns : List MirrorTx) (info : ProfileInfo)
    (hlist : o.mirrorList = .ok txns)
    (hdel : txns.find? (mirrorMatches ex) ≠ none → o.mirrorDelete = .ok ())
    (hprof : ensureProfile o.auth o.profileQuery = .ok info) :
    updateMirrorTrace o ex nm =
      .mirrorList ::
        ((match txns.find? (mirrorMatches ex) with
          | some tx => [Action.mirrorDelete tx.id]
          | none => []) ++
         [.profileFetch, .mirrorCreate (updateMirrorCreatePayload info nm)]) := by
  unfold updateMirrorTrace
  rw [hlist]
  cases hfind : txns.find? (mirrorMatches ex) with
  | none => simp [hfind, hprof]
  | some tx =>
    have hd := hdel (by rw [hfind]; simp)
    simp [hfind, hd, hprof]

/-- C1: on the happy path of update's reconciliation (the primary update
echoes a row, the mirror list fetch succeeds, the delete succeeds when a
match exists, and the profile re-resolves), the mirror work is exactly:
one fetch of the entire mirror list; the deletion of precisely the first
entry whose amount, category and type equal the pre-update record's
amount, name and category, and no delete when no entry matches; then one
create carrying the post-update values.  The update returns the remapped
row. -/
theorem update_mirror_reconciliation (st : StoreState) (id : String)
    (payload : UpdateInput) (o : UpdateOracle) (ex : Cashflow) (row : EchoRow)
    (txns : List MirrorTx) (info : ProfileInfo)
    (hex : st.cashflows.find? (fun cf => cf.id == id) = some ex)
    (hrow : updateEchoResult o ex.sourceTable = .ok (some row))
    (hlist : o.mirrorList = .ok txns)
    (hdel : txns.find? (mirrorMatches ex) ≠ none → o.mirrorDelete = .ok ())
    (hprof : ensureProfile o.auth o.profileQuery = .ok info) :
    (updateCashflow st id payload o).trace =
      .primaryUpdate ex.sourceTable ex.sourceId (updatesFor ex payload) ::
      .mirrorList ::
        ((match txns.find? (mirrorMatches ex) with
          | some tx => [Action.mirrorDelete tx.id]
          | none => []) ++
         [.profileFetch,
          .mirrorCreate (updateMirrorCreatePayload info (mapEcho o.now row))]) ∧
    (updateCashflow st id payload o).result = .ok (some (mapEcho o.now row)) := by
  have hmt := updateMirrorTrace_happy o ex (mapEcho o.now row) txns info hlist hdel hprof
  constructor
  · simp [updateCashflow, hex, hrow, hmt]
  · simp [updateCashflow, hex, hrow]

/-- The resolved profile of the branch-1 user. -/
def branchUserInfo : ProfileInfo :=
  { userId := "u1", branchId := some 1, orgId := some "o1", role := "user" }

/-- A mirror entry whose triple equals the sample income record's. -/
def mirrorTxA : MirrorTx :=
  { id := "bc-1", smeId := "o1-1", type := .income, amount := 100
    category := "Sales", description := "", date := .valid 1704153600000
    createdAt := .valid 1704153600000, updatedAt := .valid 1704153600000
    blockchainStatus := "confirmed" }

/-- A second mirror entry carrying the identical triple. -/
def mirrorTxB : MirrorTx := { mirrorTxA with id := "bc-2" }

/-- An update oracle whose mirror list holds two identical-triple
entries. -/
def reconUpdateOracle : UpdateOracle :=
  { updateIncome := .ok (some updatedIncomeRow), updateExpense := .ok none
    mirrorList := .ok [mirrorTxA, mirrorTxB], mirrorDelete := .ok ()
    auth := .ok "u1", profileQuery := .ok (some branchUserProfile)
    mirrorCreate := .ok (), now := 0 }

/-- Witness for C1 with two mirror entries carrying identical triples: the
reconciliation deletes exactly the first of them and then creates the
post-update entry. -/
theorem update_mirror_reconciliation_witness :
    [mirrorTxA, mirrorTxB].find? (mirrorMatches (mapIncomeRow 0 sampleIncomeRow)) =
      some mirrorTxA ∧
    (updateCashflow sampleState "income_transaction-1" amountUpdateInput
        reconUpdateOracle).trace =
      [.primaryUpdate .income 1 (updatesFor (mapIncomeRow 0 sampleIncomeRow) amountUpdateInput),
       .mirrorList, .mirrorDelete "bc-1", .profileFetch,
       .mirrorCreate (updateMirrorCreatePayload branchUserInfo (mapIncomeRow 0 updatedIncomeRow))] :=
  ⟨by decide,
   (update_mirror_reconciliation sampleState "income_transaction-1" amountUpdateInput
      reconUpdateOracle (mapIncomeRow 0 sampleIncomeRow) (.income updatedIncomeRow)
      [mirrorTxA, mirrorTxB] branchUserInfo (by decide) rfl rfl
      (fun _ => rfl) (by decide)).1⟩

/-- C2: mirror failures are contained.  When add's primary insert echoes a
row and the mirror create fails, add still returns the mapped record,
still prepends it to the in-memory list, and its trace is exactly the
profile fetch, the insert and the attempted mirror create — no call rolls
the committed insert back.  Update's and delete's state and result are
independent of every mirror-block oracle field (list, delete, create, and
the profile re-resolution inside update's block), so no mirror failure
can change what they return or store. -/
theorem mirror_failure_contained :
    (∀ (st : StoreState) (payload : CashflowInput) (o : AddOracle)
       (info : ProfileInfo) (row : EchoRow) (e : String),
      ensureProfile o.auth o.profileQuery = .ok info →
      insertEchoResult o payload.category = .ok (some row) →
      o.mirrorCreate = .error e →
      (addCashflow st payload o).result = .ok (some (mapEcho o.now row)) ∧
      (addCashflow st payload o).state.cashflows =
        mapEcho o.now row :: st.cashflows ∧
      (addCashflow st payload o).trace =
        [.profileFetch, insertActionFor payload info o.now,
         .mirrorCreate (addMirrorPayload payload info)]) ∧
    (∀ (st : StoreState) (id : String) (payload : UpdateInput)
       (o₁ o₂ : UpdateOracle),
      o₁.updateIncome = o₂.updateIncome → o₁.updateExpense = o₂.updateExpense →
      o₁.now = o₂.now →
      (updateCashflow st id payload o₁).state = (updateCashflow st id payload o₂).state ∧
      (updateCashflow st id payload o₁).result = (updateCashflow st id payload o₂).result) ∧
    (∀ (st : StoreState) (id : String) (o₁ o₂ : DeleteOracle),
      o₁.deleteResult = o₂.deleteResult →
      (deleteCashflow st id o₁).state = (deleteCashflow st id o₂).state ∧
      (deleteCashflow st id o₁).result = (deleteCashflow st id o₂).result) := by
  refine ⟨?_, ?_, ?_⟩
  · intro st payload o info row e hprof hecho hfail
    refine ⟨?_, ?_, ?_⟩ <;> simp [addCashflow, hprof, hecho]
  · intro st id payload o₁ o₂ h1 h2 h3
    have hecho : updateEchoResult o₁ = updateEchoResult o₂ := by
      funext t
      cases t <;> simp [updateEchoResult, h1, h2]
    cases hfind : st.cashflows.find? (fun cf => cf.id == id) with
    | none => exact ⟨by simp [updateCashflow, hfind], by simp [updateCashflow, hfind]⟩
    | some ex =>
      cases hres : updateEchoResult o₂ ex.sourceTable with
      | error m =>
        exact ⟨by simp [updateCashflow, hfind, hecho, hres],
               by simp [updateCashflow, hfind, hecho, hres]⟩
      | ok oe =>
        cases oe with
        | none =>
          exact ⟨by simp [updateCashflow, hfind, hecho, hres],
                 by simp [updateCashflow, hfind, hecho, hres]⟩
        | some row =>
          exact ⟨by simp [updateCashflow, hfind, hecho, hres, h3],
                 by simp [updateCashflow, hfind, hecho, hres, h3]⟩
  · intro st id o₁ o₂ hd
    cases hfind : st.cashflows.find? (fun cf => cf.id == id) with
    | none => exact ⟨by simp [deleteCashflow, hfind], by simp [deleteCashflow, hfind]⟩
    | some ex =>
      cases hres : o₂.deleteResult with
      | error m =>
        exact ⟨by simp [deleteCashflow, hfind, hd, hres],
               by simp [deleteCashflow, hfind, hd, hres]⟩
      | ok v =>
        exact ⟨by simp [deleteCashflow, hfind, hd, hres],
               by simp [deleteCashflow, hfind, hd, hres]⟩

/-- An add oracle whose mirror create fails. -/
def failMirrorAddOracle : AddOracle :=
  { auth := .ok "u1", profileQuery := .ok (some branchUserProfile)
    insertIncome := .ok (some sampleIncomeRow), insertExpense := .ok none
    mirrorCreate := .error "mirror down", now := 0 }

/-- The happy update oracle with a failing mirror list fetch. -/
def failMirrorUpdateOracle : UpdateOracle :=
  { happyUpdateOracle with mirrorList := .error "mirror down" }

/-- A delete oracle whose entire mirror block fails. -/
def failMirrorDeleteOracle : DeleteOracle :=
  { deleteResult := .ok (), mirrorList := .error "mirror down"
    mirrorDelete := .error "mirror down" }

/-- Witness for C2: a failing mirror create leaves a concrete add's result
and list intact, and failing mirror blocks leave a concrete update's
result and a concrete delete's state identical to their happy-mirror
runs. -/
theorem mirror_failure_contained_witness :
    (addCashflow emptyState sampleAddInput failMirrorAddOracle).result =
      .ok (some (mapIncomeRow 0 sampleIncomeRow)) ∧
    (addCashflow emptyState sampleAddInput failMirrorAddOracle).state.cashflows =
      [mapIncomeRow 0 sampleIncomeRow] ∧
    (updateCashflow sampleState "income_transaction-1" amountUpdateInput
        failMirrorUpdateOracle).result =
      (updateCashflow sampleState "income_transaction-1" amountUpdateInput
        happyUpdateOracle).result ∧
    (deleteCashflow sampleState "income_transaction-1" failMirrorDeleteOracle).state =
      (deleteCashflow sampleState "income_transaction-1" happyDeleteOracle).state :=
  ⟨(mirror_failure_contained.1 emptyState sampleAddInput failMirrorAddOracle
      branchUserInfo (.income sampleIncomeRow) "mirror down"
      (by decide) rfl rfl).1,
   (mirror_failure_contained.1 emptyState sampleAddInput failMirrorAddOracle
      branchUserInfo (.income sampleIncomeRow) "mirror down"
      (by decide) rfl rfl).2.1,
   (mirror_failure_contained.2.1 sampleState "income_transaction-1" amountUpdateInput
      failMirrorUpdateOracle happyUpdateOracle rfl rfl rfl).2,
   (mirror_failure_contained.2.2 sampleState "income_transaction-1"
      failMirrorDeleteOracle happyDeleteOracle rfl).1⟩

end CashflowStore
